import Mathlib

/-!
Verification of the OpenWebRX background service scheduler
(`owrx/service/schedule.py`) against its natural-language specification.

Shallow embedding conventions:
- instants are `Nat` seconds since an arbitrary epoch, with `% 86400`
  giving the seconds-in-day (the code uses naive UTC `datetime`s);
- `datetime.time` values (time-of-day) are `Nat` seconds in `[0, 86400)`;
- Python exceptions are modelled by the `PyErr` type; functions that may
  raise return `Except PyErr _` or carry an `Option PyErr` component;
- the mutable `ServiceScheduler` / `RotationSchedule` objects become
  explicit state records, threaded through the operations;
- calls into the external source object (`activateProfile`, `start`,
  `checkStatus`, timer arming/cancelling) are recorded in an event list.
-/

namespace OpenWebRX

/-- Python exception classes relevant to the scheduler code paths. -/
inductive PyErr where
  | keyError
  | valueError
  | otherError
deriving DecidableEq, Repr

/-- Outcome of calling one of the source's methods (`activateProfile`,
`start`): normal return, a raised `KeyError`, or any other exception. -/
inductive PyRes where
  | ok
  | keyError
  | otherError
deriving DecidableEq, Repr

/-- Numeric value of a decimal digit character, `none` otherwise. -/
def digitVal (c : Char) : Option Nat :=
  if c.isDigit then some (c.toNat - 48) else none

/-- Models `datetime.strptime(s, "%H%M").time()` on a 4-character slice:
succeeds exactly when the slice is 4 decimal digits `HHMM` with
`HH < 24` and `MM < 60` (CPython's strptime regex, which must consume
the whole 4-character string), returning seconds in day. -/
def parseHM (cs : List Char) : Option Nat :=
  match cs with
  | [a, b, c, d] =>
    match digitVal a, digitVal b, digitVal c, digitVal d with
    | some x1, some x2, some x3, some x4 =>
      let hh := x1 * 10 + x2
      let mm := x3 * 10 + x4
      if hh < 24 ∧ mm < 60 then some (hh * 3600 + mm * 60) else none
    | _, _, _, _ => none
  | _ => none

/-- `TimeScheduleEntry`: a daily-recurring window given by two
times-of-day (seconds in day) and a profile id. -/
structure TimeScheduleEntry where
  startTime : Nat
  endTime : Nat
  profile : String
deriving DecidableEq, Repr

/-- `TimeScheduleEntry.isCurrent(dt)`: the window contains `dt`'s
time-of-day; `startTime < endTime` is a same-day window, otherwise the
window wraps past midnight. -/
def TimeScheduleEntry.isCurrent (e : TimeScheduleEntry) (dt : Nat) : Bool :=
  let time := dt % 86400
  if e.startTime < e.endTime then
    decide (e.startTime ≤ time) && decide (time < e.endTime)
  else
    decide (e.startTime ≤ time) || decide (time < e.endTime)

/-- Result of the `while end < now: end += timedelta(days=1)` loop: the
smallest value of the form `endT + 86400 * k` that is `≥ now`. -/
def advanceDays (endT now : Nat) : Nat :=
  if endT < now then endT + 86400 * ((now - endT + 86399) / 86400) else endT

/-- `TimeScheduleEntry.getScheduledEnd()`: combine today's date with the
end time-of-day, then add whole days while the result is before `now`. -/
def TimeScheduleEntry.getScheduledEnd (e : TimeScheduleEntry) (now : Nat) : Nat :=
  advanceDays (now / 86400 * 86400 + e.endTime) now

/-- `TimeScheduleEntry.getNextActivation()`: combine today's date with
the start time-of-day, then add whole days while before `now`. -/
def TimeScheduleEntry.getNextActivation (e : TimeScheduleEntry) (now : Nat) : Nat :=
  advanceDays (now / 86400 * 86400 + e.startTime) now

/-- The closed union of concrete `ScheduleEntry` subclasses, as consumed
by `ServiceScheduler` (`time` = `TimeScheduleEntry`, `dt` =
`DatetimeScheduleEntry`, `rot` = `RotationScheduleEntry`). -/
inductive EntryModel where
  | time (e : TimeScheduleEntry)
  | dt (startT endT : Nat) (profile : String)
  | rot (startT endT : Nat) (profile : String)
deriving DecidableEq, Repr

/-- `ScheduleEntry.getProfile()`. -/
def EntryModel.getProfile : EntryModel → String
  | .time e => e.profile
  | .dt _ _ p => p
  | .rot _ _ p => p

/-- Dynamic dispatch of `getScheduledEnd`; the time-of-day variant reads
the clock (`now`), the absolute variants return their stored end. -/
def EntryModel.getScheduledEnd (e : EntryModel) (now : Nat) : Nat :=
  match e with
  | .time e => e.getScheduledEnd now
  | .dt _ endT _ => endT
  | .rot _ endT _ => endT

/-- Dynamic dispatch of `getNextActivation`; `RotationScheduleEntry`
returns its end time, `DatetimeScheduleEntry` its start time. -/
def EntryModel.getNextActivation (e : EntryModel) (now : Nat) : Nat :=
  match e with
  | .time e => e.getNextActivation now
  | .dt startT _ _ => startT
  | .rot _ endT _ => endT

/-- `RotationSchedule` mutable state: profile list, dwell interval in
seconds, cursor, and the expiry instant of the current dwell. -/
structure RotationSchedule where
  profiles : List String
  interval : Nat
  current_index : Nat
  current_end_time : Option Nat
deriving DecidableEq, Repr

/-- `RotationSchedule.getCurrentEntry()`: empty list yields none;
otherwise advance the cursor (mod list length) if the current dwell has
expired, set the dwell expiry to `now + interval` if unset, and return a
`RotationScheduleEntry` for the profile at the cursor (its constructor
stamps `startTime := now`). Returns the entry and the updated state. -/
def RotationSchedule.getCurrentEntry (now : Nat) (s : RotationSchedule) :
    Option EntryModel × RotationSchedule :=
  if s.profiles = [] then (none, s)
  else
    let s1 :=
      match s.current_end_time with
      | some endT =>
        if endT ≤ now then
          { s with current_index := (s.current_index + 1) % s.profiles.length,
                   current_end_time := none }
        else s
      | none => s
    let s2 :=
      match s1.current_end_time with
      | none => { s1 with current_end_time := some (now + s1.interval) }
      | some _ => s1
    (some (.rot now (s2.current_end_time.getD 0) (s2.profiles.getD s2.current_index "")), s2)

/-- `RotationSchedule.getNextEntry()`: empty list yields none; otherwise
return a `RotationScheduleEntry` for the profile after the cursor, ending
one interval after the current dwell expiry (or after `now` when no dwell
expiry is set); no field is assigned. -/
def RotationSchedule.getNextEntry (now : Nat) (s : RotationSchedule) :
    Option EntryModel × RotationSchedule :=
  if s.profiles = [] then (none, s)
  else
    let next_index := (s.current_index + 1) % s.profiles.length
    let next_start := s.current_end_time.getD now
    let next_end := next_start + s.interval
    (some (.rot now next_end (s.profiles.getD next_index "")), s)

/-- `StaticSchedule.__init__`: iterate the schedule dict; a key whose
length is not 9 is logged and skipped; otherwise both `HHMM` halves are
parsed with `strptime`, which raises `ValueError` (aborting construction)
on unparsable content. -/
def staticInitEntries : List (String × String) → Except PyErr (List TimeScheduleEntry)
  | [] => .ok []
  | (time, profile) :: rest =>
    let cs := time.toList
    if cs.length ≠ 9 then staticInitEntries rest
    else
      match parseHM (cs.take 4), parseHM ((cs.drop 5).take 4) with
      | some st, some et =>
        match staticInitEntries rest with
        | .ok es => .ok (⟨st, et, profile⟩ :: es)
        | .error e => .error e
      | _, _ => .error .valueError

/-- The value found under a `schedule` configuration key: either a dict
of string keys to profile-id strings (static windows / daylight phases;
assumed to have no `profiles` or `interval` key), or a rotation dict with
optional `profiles` and `interval` (minutes) members. -/
inductive ScheduleDict where
  | smap (d : List (String × String))
  | rmap (profiles? : Option (List String)) (interval? : Option Nat)
deriving DecidableEq, Repr

/-- The `scheduler` configuration block: optional `type` discriminator
and optional `schedule` member. -/
structure SchedulerBlock where
  type? : Option String
  schedule? : Option ScheduleDict
deriving DecidableEq, Repr

/-- The slice of the source's property dict read by `Schedule.parse`:
the optional `scheduler` block and the optional legacy top-level
`schedule` key. -/
structure PropsModel where
  scheduler? : Option SchedulerBlock
  schedule? : Option ScheduleDict
deriving DecidableEq, Repr

/-- `RotationSchedule.__init__`: `profiles` defaults to `[]`, `interval`
defaults to 5 and is converted from minutes to seconds; cursor at 0 with
no dwell expiry. A string-map dict has neither key, giving the defaults. -/
def RotationSchedule.init : ScheduleDict → RotationSchedule
  | .rmap profiles? interval? =>
    ⟨profiles?.getD [], (interval?.getD 5) * 60, 0, none⟩
  | .smap _ => ⟨[], 5 * 60, 0, none⟩

/-- `StaticSchedule.__init__` on an arbitrary schedule dict value; the
keys of a rotation-shaped dict (`profiles`, `interval`) are not 9
characters long, so they are all skipped. -/
def staticInitOf : ScheduleDict → Except PyErr (List TimeScheduleEntry)
  | .smap d => staticInitEntries d
  | .rmap _ _ => .ok []

/-- The closed union of concrete `Schedule` subclasses produced by
`Schedule.parse` (the daylight variant stores its phase dict; its
entries are computed lazily from solar geometry on each query). -/
inductive ParsedSchedule where
  | static (entries : List TimeScheduleEntry)
  | daylight (schedule : List (String × String))
  | rotation (rs : RotationSchedule)
deriving DecidableEq, Repr

/-- `Schedule.parse(props)`: dispatch on the `type` discriminator of the
`scheduler` block (defaulting to `static`), with a legacy fallback
treating a bare top-level `schedule` key as static; an unknown `type` is
logged and yields no schedule; a missing `schedule` member raises
`KeyError`, and `StaticSchedule` construction may raise `ValueError`. -/
def Schedule.parse (props : PropsModel) : Except PyErr (Option ParsedSchedule) :=
  match props.scheduler? with
  | some sc =>
    let t := sc.type?.getD "static"
    if t = "static" then
      match sc.schedule? with
      | none => .error .keyError
      | some d =>
        match staticInitOf d with
        | .ok es => .ok (some (.static es))
        | .error e => .error e
    else if t = "daylight" then
      match sc.schedule? with
      | none => .error .keyError
      | some (.smap d) => .ok (some (.daylight d))
      | some (.rmap _ _) => .ok (some (.daylight []))
    else if t = "rotation" then
      match sc.schedule? with
      | none => .error .keyError
      | some d => .ok (some (.rotation (RotationSchedule.init d)))
    else
      .ok none
  | none =>
    match props.schedule? with
    | some d =>
      match staticInitOf d with
      | .ok es => .ok (some (.static es))
      | .error e => .error e
    | none => .ok none

/-- `TimerangeSchedule.getCurrentEntry()`: the first configured entry
whose window contains the current instant, if any (list comprehension
filter, then first element). -/
def timerangeGetCurrentEntry (now : Nat) (entries : List TimeScheduleEntry) :
    Option EntryModel :=
  ((entries.filter (fun p => p.isCurrent now)).head?).map .time

/-- `TimerangeSchedule.getNextEntry()`: the entry with the soonest next
activation (Python's stable sort followed by taking the head picks the
first entry attaining the minimal key). -/
def timerangeGetNextEntry (now : Nat) (entries : List TimeScheduleEntry) :
    Option EntryModel :=
  (entries.argmin (fun e => e.getNextActivation now)).map .time

/-- Virtual-method table for a `Schedule` implementation with state type
`σ`: both queries read the clock and may update the schedule state
(`RotationSchedule` mutates on read; the timerange schedules do not). -/
structure ScheduleOps (σ : Type) where
  getCurrentEntry : Nat → σ → Option EntryModel × σ
  getNextEntry : Nat → σ → Option EntryModel × σ

/-- `StaticSchedule` viewed through the `Schedule` interface. -/
def staticOps : ScheduleOps (List TimeScheduleEntry) where
  getCurrentEntry now entries := (timerangeGetCurrentEntry now entries, entries)
  getNextEntry now entries := (timerangeGetNextEntry now entries, entries)

/-- `RotationSchedule` viewed through the `Schedule` interface. -/
def rotationOps : ScheduleOps RotationSchedule where
  getCurrentEntry := RotationSchedule.getCurrentEntry
  getNextEntry := RotationSchedule.getNextEntry

/-- The scheduler's view of the managed source: live predicates and the
outcome of each command the scheduler may issue. -/
structure SourceModel where
  hasUserClients : Bool
  enabled : Bool
  failed : Bool
  activateResult : String → PyRes
  startResult : PyRes

/-- Observable calls issued by the scheduler: timer management and
commands on the source. `armTimer` records the absolute instant the new
`threading.Timer` is due to fire (`now + seconds`). -/
inductive Ev where
  | cancelTimer
  | armTimer (fireAt : Int)
  | activateProfile (p : String)
  | start
  | checkStatus
deriving DecidableEq, Repr

/-- `ServiceScheduler` mutable state over a schedule state type `σ`.
`timers` tracks, per created `threading.Timer` (numbered in creation
order by `timerCount`), whether it is still armed; `selectionTimer` is
the reference held in `self.selectionTimer` (the most recently created
timer, `none` before the first one). -/
structure SchedState (σ : Type) where
  timers : Nat → Bool
  timerCount : Nat
  selectionTimer : Option Nat
  currentEntry : Option EntryModel
  schedule : Option σ
  subscriptions : Nat

/-- `ServiceScheduler.cancelTimer()`: if a timer reference is held,
cancel that timer (idempotent; cancelling a fired or cancelled timer is
a no-op on timer state but the call still happens). -/
def cancelTimer {σ : Type} (s : SchedState σ) : SchedState σ × List Ev :=
  match s.selectionTimer with
  | none => (s, [])
  | some i =>
    ({ s with timers := fun j => if j = i then false else s.timers j }, [.cancelTimer])

/-- `ServiceScheduler.scheduleSelection(time)`: drop the request if the
source is disabled or failed; otherwise compute the delay (10 s default,
or `time - now`), cancel any held timer, and create and start a fresh
`threading.Timer` for `selectProfile`. -/
def scheduleSelection {σ : Type} (src : SourceModel) (now : Nat) (time? : Option Nat)
    (s : SchedState σ) : SchedState σ × List Ev :=
  if ¬src.enabled ∨ src.failed then (s, [])
  else
    let fireAt : Int :=
      match time? with
      | some t => (t : Int)
      | none => (now : Int) + 10
    let (s1, ev1) := cancelTimer s
    ({ s1 with
        timers := fun j => if j = s1.timerCount then true else s1.timers j,
        timerCount := s1.timerCount + 1,
        selectionTimer := some s1.timerCount },
     ev1 ++ [.armTimer fireAt])

/-- `ServiceScheduler._setCurrentEntry(entry)`: store the entry; when it
is not none, arm the re-evaluation timer for the entry's scheduled end,
then call `activateProfile` and `start` with `KeyError` suppressed (any
other exception propagates, skipping the rest); finally (when no
exception escaped) ask the source to re-check its status. -/
def setCurrentEntry {σ : Type} (src : SourceModel) (now : Nat)
    (entry : Option EntryModel) (s : SchedState σ) :
    SchedState σ × List Ev × Option PyErr :=
  let s0 := { s with currentEntry := entry }
  match entry with
  | none => (s0, [.checkStatus], none)
  | some e =>
    let (s1, ev1) := scheduleSelection src now (some (e.getScheduledEnd now)) s0
    match src.activateResult e.getProfile with
    | .ok =>
      match src.startResult with
      | .ok => (s1, ev1 ++ [.activateProfile e.getProfile, .start, .checkStatus], none)
      | .keyError => (s1, ev1 ++ [.activateProfile e.getProfile, .start, .checkStatus], none)
      | .otherError => (s1, ev1 ++ [.activateProfile e.getProfile, .start], some .otherError)
    | .keyError => (s1, ev1 ++ [.activateProfile e.getProfile, .checkStatus], none)
    | .otherError => (s1, ev1 ++ [.activateProfile e.getProfile], some .otherError)

/-- `ServiceScheduler.selectProfile()` (the timer callback): interactive
users win (return untouched); with no schedule, clear the current entry;
otherwise apply the schedule's current entry, and when there is none,
preview the next entry and arm its activation instant. An exception
escaping `_setCurrentEntry` propagates out of the callback. -/
def selectProfile {σ : Type} (ops : ScheduleOps σ) (src : SourceModel) (now : Nat)
    (s : SchedState σ) : SchedState σ × List Ev × Option PyErr :=
  if src.hasUserClients then (s, [], none)
  else
    match s.schedule with
    | none => setCurrentEntry src now none s
    | some sch =>
      let (entry, sch') := ops.getCurrentEntry now sch
      let (s1, ev1, err) := setCurrentEntry src now entry { s with schedule := some sch' }
      match err with
      | some e => (s1, ev1, some e)
      | none =>
        match s1.currentEntry with
        | some _ => (s1, ev1, none)
        | none =>
          let (nextEntry, sch'') := ops.getNextEntry now sch'
          let s2 := { s1 with schedule := some sch'' }
          match nextEntry with
          | some ne =>
            let (s3, ev3) := scheduleSelection src now (some (ne.getNextActivation now)) s2
            (s3, ev1 ++ ev3, none)
          | none => (s2, ev1, none)

/-- `ServiceScheduler.parseSchedule()`: replace the schedule with the
result of `Schedule.parse` on the live properties (passed here as the
already-parsed value) and request a re-evaluation. -/
def parseScheduleOp {σ : Type} (src : SourceModel) (now : Nat) (newSched : Option σ)
    (s : SchedState σ) : SchedState σ × List Ev :=
  scheduleSelection src now none { s with schedule := newSched }

/-- `ServiceScheduler.shutdown()`: cancel all subscriptions, cancel the
timer, deregister from the source. -/
def shutdown {σ : Type} (s : SchedState σ) : SchedState σ × List Ev :=
  cancelTimer { s with subscriptions := 0 }

/-- Source lifecycle states observed by `onStateChange` (from
`owrx.source`, outside the scheduler module). -/
inductive SdrSourceState where
  | running
  | stopping
  | failed
deriving DecidableEq, Repr

/-- Source busy states observed by `onBusyStateChange` (from
`owrx.source`, outside the scheduler module). -/
inductive SdrBusyState where
  | idle
  | busy
deriving DecidableEq, Repr

/-- `ServiceScheduler.onStateChange`: a transition to `STOPPING`
requests a re-evaluation. -/
def onStateChange {σ : Type} (src : SourceModel) (now : Nat) (state : SdrSourceState)
    (s : SchedState σ) : SchedState σ × List Ev :=
  if state = .stopping then scheduleSelection src now none s else (s, [])

/-- `ServiceScheduler.onBusyStateChange`: becoming idle requests a
re-evaluation. -/
def onBusyStateChange {σ : Type} (src : SourceModel) (now : Nat) (state : SdrBusyState)
    (s : SchedState σ) : SchedState σ × List Ev :=
  if state = .idle then scheduleSelection src now none s else (s, [])

/-- One externally triggered operation on a `ServiceScheduler` instance
(timer firing, property/lifecycle event handlers, teardown). -/
inductive SchedulerOp (σ : Type) where
  | parseSchedule (newSched : Option σ)
  | timerFire (i : Nat)
  | onStateChange (state : SdrSourceState)
  | onFail
  | onShutdown
  | onDisable
  | onEnable
  | onBusyStateChange (state : SdrBusyState)
  | onFrequencyChange
  | shutdown

/-- Apply one scheduler operation to the state. A timer only fires while
armed; firing disarms it and runs the `selectProfile` callback. -/
def applyOp {σ : Type} (ops : ScheduleOps σ) (src : SourceModel) (now : Nat) :
    SchedulerOp σ → SchedState σ → SchedState σ
  | .parseSchedule newSched, s => (parseScheduleOp src now newSched s).1
  | .timerFire i, s =>
    if s.timers i then
      (selectProfile ops src now
        { s with timers := fun j => if j = i then false else s.timers j }).1
    else s
  | .onStateChange st, s => (onStateChange src now st s).1
  | .onFail, s => (shutdown s).1
  | .onShutdown, s => (shutdown s).1
  | .onDisable, s => (cancelTimer s).1
  | .onEnable, s => (scheduleSelection src now none s).1
  | .onBusyStateChange st, s => (onBusyStateChange src now st s).1
  | .onFrequencyChange, s => (scheduleSelection src now none s).1
  | .shutdown, s => (shutdown s).1

/-- CPython's `math.acos`: raises `ValueError` ("math domain error") on
an argument outside `[-1, 1]` instead of returning a NaN; otherwise the
principal arc cosine. -/
noncomputable def macos (x : ℝ) : Except PyErr ℝ :=
  if x < -1 ∨ 1 < x then .error .valueError else .ok (Real.arccos x)

/-- The solstice-calibrated day angle `b = 2π(days − 81)/365` of
`DaylightSchedule.getSunTimes`, with `days` the date's day of year. -/
noncomputable def bAngle (days : ℕ) : ℝ :=
  2 * Real.pi * ((days : ℝ) - 81) / 365

/-- The solar declination of `DaylightSchedule.getSunTimes`:
`asin(sin(23.45°)·sin(b))`. -/
noncomputable def declination (days : ℕ) : ℝ :=
  Real.arcsin (Real.sin (23.45 * (Real.pi / 180)) * Real.sin (bAngle days))

/-- The argument passed to both `math.acos` calls in
`DaylightSchedule.getSunTimes`: `-tan(lat·π/180)·tan(declination)`. -/
noncomputable def acosArg (lat : ℝ) (days : ℕ) : ℝ :=
  -(Real.tan (lat * (Real.pi / 180))) * Real.tan (declination days)

/-- `DaylightSchedule.getSunTimes(date)`: NOAA-style approximation; the
date contributes its day-of-year `days` and its midnight instant
(`days * 86400` seconds in our within-year model); `lat`/`lng` come from
the receiver GPS configuration. Both the sunrise and the sunset line
take `math.acos` of the same hour-angle argument, with no guard. -/
noncomputable def getSunTimes (lat lng : ℝ) (days : ℕ) : Except PyErr (ℝ × ℝ) := do
  let radtodeg := 180 / Real.pi
  let longCorr := 4 * lng
  let eoTCorr := 9.87 * Real.sin (2 * bAngle days) - 7.53 * Real.cos (bAngle days)
    - 1.5 * Real.sin (bAngle days)
  let solarCorr := longCorr + eoTCorr
  let h1 ← macos (acosArg lat days)
  let h2 ← macos (acosArg lat days)
  let sunrise := 12 - h1 * radtodeg / 15 - solarCorr / 60
  let sunset := 12 + h2 * radtodeg / 15 - solarCorr / 60
  let midnight : ℝ := (days : ℝ) * 86400
  return (midnight + sunrise * 3600, midnight + sunset * 3600)

/-- Timer bookkeeping invariant: every armed timer is the one currently
referenced by `selectionTimer`. -/
def timerInv {σ : Type} (s : SchedState σ) : Prop :=
  ∀ i, s.timers i = true → s.selectionTimer = some i

/-- At most one timer of the instance is armed. -/
def atMostOneArmed {σ : Type} (s : SchedState σ) : Prop :=
  ∀ i j, s.timers i = true → s.timers j = true → i = j

/-! Theorems. -/

/-- C1: if the source reports at least one interactive (USER-class)
client, `selectProfile` returns immediately: the whole scheduler state
(including `currentEntry` and all timers) is unchanged, no event is
issued towards the source or the timer facility (so no re-evaluation
timer is armed and none of `activateProfile`, `start`, `checkStatus` is
invoked), and no exception is raised. -/
theorem selectProfile_interactive_users_noop {σ : Type} (ops : ScheduleOps σ)
    (src : SourceModel) (now : Nat) (s : SchedState σ)
    (h : src.hasUserClients = true) :
    selectProfile ops src now s = (s, [], none) := by
  simp [selectProfile, h]

/-- Witness for C1 at a concrete scheduler state with an interactive
user present. -/
theorem selectProfile_interactive_users_noop_witness :
    selectProfile staticOps
      ⟨true, true, false, fun _ => .ok, .ok⟩ 1000
      ⟨fun _ => false, 0, none, none, some [⟨21600, 64800, "wfm"⟩], 2⟩ =
    (⟨fun _ => false, 0, none, none, some [⟨21600, 64800, "wfm"⟩], 2⟩, [], none) :=
  selectProfile_interactive_users_noop staticOps
    ⟨true, true, false, fun _ => .ok, .ok⟩ 1000
    ⟨fun _ => false, 0, none, none, some [⟨21600, 64800, "wfm"⟩], 2⟩ rfl

/-- C10: when the source is disabled or failed, `scheduleSelection`
returns without touching the state and without issuing any call: no
timer is armed and no already-armed timer is cancelled; the request is
silently dropped. -/
theorem scheduleSelection_disabled_or_failed_drops {σ : Type} (src : SourceModel)
    (now : Nat) (time? : Option Nat) (s : SchedState σ)
    (h : src.enabled = false ∨ src.failed = true) :
    scheduleSelection src now time? s = (s, []) := by
  unfold scheduleSelection
  rcases h with h | h <;> simp [h]

/-- Witness for C10 at a concrete disabled source and a state holding an
armed timer (which stays armed). -/
theorem scheduleSelection_disabled_or_failed_drops_witness :
    scheduleSelection (σ := RotationSchedule)
      ⟨false, false, false, fun _ => .ok, .ok⟩ 500 (some 900)
      ⟨fun j => j = 0, 1, some 0, none, none, 2⟩ =
    (⟨fun j => j = 0, 1, some 0, none, none, 2⟩, []) :=
  scheduleSelection_disabled_or_failed_drops
    ⟨false, false, false, fun _ => .ok, .ok⟩ 500 (some 900)
    ⟨fun j => j = 0, 1, some 0, none, none, 2⟩ (Or.inl rfl)

/-- C7: for a `TimeScheduleEntry` whose start time-of-day is strictly
greater than its end time-of-day, `isCurrent dt` holds exactly when
`dt`'s time-of-day is at or after the start or strictly before the end
(the window wraps past midnight). -/
theorem timeScheduleEntry_isCurrent_wraparound (e : TimeScheduleEntry) (dt : Nat)
    (h : e.endTime < e.startTime) :
    e.isCurrent dt = true ↔
      (e.startTime ≤ dt % 86400 ∨ dt % 86400 < e.endTime) := by
  unfold TimeScheduleEntry.isCurrent
  have hne : ¬ e.startTime < e.endTime := by omega
  simp [hne]

/-- Witness for C7 on the window `"2300-0100"`: current at 23:30 and at
00:30, not current at 12:00. -/
theorem timeScheduleEntry_isCurrent_wraparound_witness :
    (⟨82800, 3600, "x"⟩ : TimeScheduleEntry).isCurrent 84600 = true ∧
    (⟨82800, 3600, "x"⟩ : TimeScheduleEntry).isCurrent 1800 = true ∧
    (⟨82800, 3600, "x"⟩ : TimeScheduleEntry).isCurrent 43200 = false := by
  refine ⟨(timeScheduleEntry_isCurrent_wraparound ⟨82800, 3600, "x"⟩ 84600
      (by decide)).mpr (by decide),
    (timeScheduleEntry_isCurrent_wraparound ⟨82800, 3600, "x"⟩ 1800
      (by decide)).mpr (by decide), ?_⟩
  have h12 := timeScheduleEntry_isCurrent_wraparound ⟨82800, 3600, "x"⟩ 43200 (by decide)
  revert h12
  decide

/-- C5 counterexample: for the state with cursor 0, dwell end-time 100,
interval 60, profiles `["a", "b"]`, queried at instant 0, `getNextEntry`
returns the entry `(start 0, end 160, "b")`: its window starts at the
query instant 0, not at the current end-time 100 as the claim states
(the `RotationScheduleEntry` constructor stamps `startTime := now`; the
projected start only feeds the end computation). -/
theorem rotationSchedule_getNextEntry_start_counterexample :
    (RotationSchedule.getNextEntry 0 ⟨["a", "b"], 60, 0, some 100⟩).1 =
      some (.rot 0 160 "b") ∧
    (RotationSchedule.getNextEntry 0 ⟨["a", "b"], 60, 0, some 100⟩).1 ≠
      some (.rot 100 160 "b") := by
  decide

/-- C5 (amended): for a non-empty profile list, `getNextEntry` mutates
no state and returns an entry for `profiles[(currentIndex+1) mod N]`
whose window starts at the query instant and ends one interval after the
current end-time (`currentEndTime` when set, else the query instant). -/
theorem rotationSchedule_getNextEntry_pure (now : Nat) (s : RotationSchedule)
    (h : s.profiles ≠ []) :
    RotationSchedule.getNextEntry now s =
      (some (.rot now (s.current_end_time.getD now + s.interval)
        (s.profiles.getD ((s.current_index + 1) % s.profiles.length) "")), s) := by
  unfold RotationSchedule.getNextEntry
  simp [h]

/-- Witness for amended C5 at a concrete rotation state. -/
theorem rotationSchedule_getNextEntry_pure_witness :
    RotationSchedule.getNextEntry 7 ⟨["a", "b", "c"], 60, 2, some 100⟩ =
      (some (.rot 7 160 "a"), ⟨["a", "b", "c"], 60, 2, some 100⟩) :=
  (rotationSchedule_getNextEntry_pure 7 ⟨["a", "b", "c"], 60, 2, some 100⟩
    (by decide)).trans (by decide)

/-- C3: evaluation of `Schedule.parse` around malformed configuration.
The window token `"abcd-efgh"` has the correct length 9, so it reaches
`strptime`, which raises `ValueError`: contrary to the claim (and the
spec's error-handling design), parsing malformed configuration can
raise. The remaining conjuncts record the parts of the claim the code
does honour: an unknown `type` yields no schedule, a bare top-level
`schedule` key parses as a static schedule, and a window token of the
wrong length is skipped while later entries are still parsed. -/
theorem schedule_parse_malformed_evaluation :
    Schedule.parse ⟨some ⟨some "static", some (.smap [("abcd-efgh", "fm")])⟩, none⟩ =
      .error .valueError ∧
    Schedule.parse ⟨some ⟨some "fancy", some (.smap [("0600-1800", "wfm")])⟩, none⟩ =
      .ok none ∧
    Schedule.parse ⟨none, some (.smap [("0600-1800", "wfm")])⟩ =
      .ok (some (.static [⟨21600, 64800, "wfm"⟩])) ∧
    staticInitEntries [("06001800", "fm"), ("0600-1800", "wfm")] =
      .ok [⟨21600, 64800, "wfm"⟩] :=
  ⟨rfl, rfl, rfl, rfl⟩

/-- The controller's periodic reads of a rotation schedule: call number
`k` invokes `getCurrentEntry` at instant `t0 + k·I` (the dwell
boundaries, where the armed re-evaluation timer fires), threading the
mutated schedule state through. -/
def rotCalls (s0 : RotationSchedule) (t0 : Nat) : Nat → Option EntryModel × RotationSchedule
  | 0 => RotationSchedule.getCurrentEntry t0 s0
  | k + 1 =>
    RotationSchedule.getCurrentEntry (t0 + (k + 1) * s0.interval) (rotCalls s0 t0 k).2

/-- C4: for a fresh rotation schedule over a non-empty profile list with
interval `I`, the read performed when `k·I` seconds have elapsed since
the first activation selects `profiles[k mod N]` (index 0 initially),
the cursor advancing by time comparison at read time and wrapping modulo
the list length; the dwell end-time after that read is `t0 + k·I + I`. -/
theorem rotationSchedule_kth_read (profiles : List String) (I t0 k : Nat)
    (h : profiles ≠ []) :
    (rotCalls ⟨profiles, I, 0, none⟩ t0 k).1.map EntryModel.getProfile =
      some (profiles.getD (k % profiles.length) "") ∧
    (rotCalls ⟨profiles, I, 0, none⟩ t0 k).2 =
      ⟨profiles, I, k % profiles.length, some (t0 + k * I + I)⟩ := by
  induction k with
  | zero =>
    unfold rotCalls RotationSchedule.getCurrentEntry
    simp [h, EntryModel.getProfile]
  | succ k ih =>
    unfold rotCalls
    rw [ih.2]
    unfold RotationSchedule.getCurrentEntry
    have hle : t0 + k * I + I ≤ t0 + (k + 1) * I := by
      have : (k + 1) * I = k * I + I := by ring
      omega
    have hmod : (k % profiles.length + 1) % profiles.length =
        (k + 1) % profiles.length := by
      simp [Nat.add_mod]
    simp [h, hle, hmod, EntryModel.getProfile]

/-- Witness for C4: profiles `["a", "b"]` with a 300-second interval,
read at 0, 300, 600 and 900 seconds after the first activation; the
read at `3·I` selects `profiles[3 mod 2] = "b"`. -/
theorem rotationSchedule_kth_read_witness :
    (rotCalls ⟨["a", "b"], 300, 0, none⟩ 1000 3).1.map EntryModel.getProfile =
      some "b" ∧
    (rotCalls ⟨["a", "b"], 300, 0, none⟩ 1000 3).2 =
      ⟨["a", "b"], 300, 1, some 2200⟩ := by
  have h := rotationSchedule_kth_read ["a", "b"] 300 1000 3 (by decide)
  exact ⟨h.1.trans (by decide), h.2.trans (by decide)⟩

/-- C6: when the schedule yields a current entry and the source is
enabled and not failed, `selectProfile` stores the entry as
`currentEntry`, invokes the source's profile-activation and (when
activation succeeds) start operations with a profile-not-found
`KeyError` suppressed as a non-fatal no-op, re-checks the source status,
and arms the re-evaluation timer for exactly the entry's scheduled end
instant (every armed timer in the call targets that instant). -/
theorem selectProfile_current_entry_activation {σ : Type} (ops : ScheduleOps σ)
    (src : SourceModel) (now : Nat) (s : SchedState σ) (sch sch' : σ)
    (entry : EntryModel)
    (hU : src.hasUserClients = false)
    (hs : s.schedule = some sch)
    (hg : ops.getCurrentEntry now sch = (some entry, sch'))
    (he : src.enabled = true)
    (hf : src.failed = false)
    (ha : src.activateResult entry.getProfile ≠ .otherError)
    (hst : src.startResult ≠ .otherError) :
    (selectProfile ops src now s).2.2 = none ∧
    (selectProfile ops src now s).1.currentEntry = some entry ∧
    (selectProfile ops src now s).1.schedule = some sch' ∧
    Ev.activateProfile entry.getProfile ∈ (selectProfile ops src now s).2.1 ∧
    (src.activateResult entry.getProfile = .ok →
      Ev.start ∈ (selectProfile ops src now s).2.1) ∧
    Ev.checkStatus ∈ (selectProfile ops src now s).2.1 ∧
    Ev.armTimer (entry.getScheduledEnd now) ∈ (selectProfile ops src now s).2.1 ∧
    (∀ x, Ev.armTimer x ∈ (selectProfile ops src now s).2.1 →
      x = (entry.getScheduledEnd now : Int)) := by
  have hact : src.activateResult entry.getProfile = .ok ∨
      src.activateResult entry.getProfile = .keyError := by
    cases hA : src.activateResult entry.getProfile <;> simp_all
  have hstart : src.startResult = .ok ∨ src.startResult = .keyError := by
    cases hS : src.startResult <;> simp_all
  cases hT : s.selectionTimer <;> rcases hact with hA | hA <;>
    rcases hstart with hS | hS <;>
    simp [selectProfile, setCurrentEntry, scheduleSelection, cancelTimer,
      hs, hg, hU, he, hf, hA, hS, hT]

/-- Witness for C6, the spec's end-to-end scenario 1: static schedule
`{"0600-1800": "wfm"}` evaluated at 07:00 UTC on day 0 selects profile
`"wfm"` and arms the re-evaluation timer for 18:00 the same day
(instant 64800). -/
theorem selectProfile_current_entry_activation_witness :
    (selectProfile staticOps ⟨false, true, false, fun _ => .ok, .ok⟩ 25200
      ⟨fun _ => false, 0, none, none, some [⟨21600, 64800, "wfm"⟩], 2⟩).1.currentEntry =
      some (.time ⟨21600, 64800, "wfm"⟩) ∧
    Ev.activateProfile "wfm" ∈
      (selectProfile staticOps ⟨false, true, false, fun _ => .ok, .ok⟩ 25200
        ⟨fun _ => false, 0, none, none, some [⟨21600, 64800, "wfm"⟩], 2⟩).2.1 ∧
    Ev.armTimer 64800 ∈
      (selectProfile staticOps ⟨false, true, false, fun _ => .ok, .ok⟩ 25200
        ⟨fun _ => false, 0, none, none, some [⟨21600, 64800, "wfm"⟩], 2⟩).2.1 ∧
    Ev.start ∈
      (selectProfile staticOps ⟨false, true, false, fun _ => .ok, .ok⟩ 25200
        ⟨fun _ => false, 0, none, none, some [⟨21600, 64800, "wfm"⟩], 2⟩).2.1 := by
  have h := selectProfile_current_entry_activation staticOps
    ⟨false, true, false, fun _ => .ok, .ok⟩ 25200
    ⟨fun _ => false, 0, none, none, some [⟨21600, 64800, "wfm"⟩], 2⟩
    [⟨21600, 64800, "wfm"⟩] [⟨21600, 64800, "wfm"⟩] (.time ⟨21600, 64800, "wfm"⟩)
    rfl rfl rfl rfl rfl (by simp) (by simp)
  exact ⟨h.2.1, h.2.2.2.1, h.2.2.2.2.2.2.1, h.2.2.2.2.1 rfl⟩

/-- C2 counterexample: a non-KeyError exception raised by the source's
`activateProfile` during background activation propagates out of
`_setCurrentEntry` and out of the `selectProfile` timer callback (the
returned exception component is not `none`), contradicting the claim
that such exceptions do not propagate out of the timer callback. -/
theorem selectProfile_error_escapes_counterexample :
    (selectProfile rotationOps ⟨false, true, false, fun _ => .otherError, .ok⟩ 0
      ⟨fun _ => false, 0, none, none, some ⟨["a"], 60, 0, none⟩, 1⟩).2.2 =
      some PyErr.otherError := rfl

/-- C2 (amended): during background activation in `_setCurrentEntry`, a
`KeyError` raised by `activateProfile` or `start` is swallowed as a
non-fatal no-op (no exception escapes and `checkStatus` still runs); any
other exception propagates out of `_setCurrentEntry` and hence out of
the `selectProfile` timer callback, skipping `checkStatus` — but the
scheduler instance survives armed: `currentEntry` and the re-evaluation
timer for the entry's scheduled end were already set before the
activation attempt. -/
theorem setCurrentEntry_error_containment {σ : Type} (ops : ScheduleOps σ)
    (src : SourceModel) (now : Nat) (s : SchedState σ) (sch sch' : σ)
    (entry : EntryModel)
    (hU : src.hasUserClients = false)
    (hs : s.schedule = some sch)
    (hg : ops.getCurrentEntry now sch = (some entry, sch'))
    (he : src.enabled = true)
    (hf : src.failed = false) :
    (src.activateResult entry.getProfile = .keyError →
      (selectProfile ops src now s).2.2 = none ∧
      Ev.checkStatus ∈ (selectProfile ops src now s).2.1 ∧
      Ev.start ∉ (selectProfile ops src now s).2.1) ∧
    (src.activateResult entry.getProfile = .otherError →
      (selectProfile ops src now s).2.2 = some .otherError ∧
      Ev.checkStatus ∉ (selectProfile ops src now s).2.1 ∧
      (selectProfile ops src now s).1.currentEntry = some entry ∧
      Ev.armTimer (entry.getScheduledEnd now) ∈ (selectProfile ops src now s).2.1) ∧
    (src.activateResult entry.getProfile = .ok →
      src.startResult = .keyError →
      (selectProfile ops src now s).2.2 = none ∧
      Ev.checkStatus ∈ (selectProfile ops src now s).2.1) ∧
    (src.activateResult entry.getProfile = .ok →
      src.startResult = .otherError →
      (selectProfile ops src now s).2.2 = some .otherError ∧
      Ev.checkStatus ∉ (selectProfile ops src now s).2.1 ∧
      (selectProfile ops src now s).1.currentEntry = some entry ∧
      Ev.armTimer (entry.getScheduledEnd now) ∈ (selectProfile ops src now s).2.1) := by
  cases hT : s.selectionTimer <;>
    cases hA : src.activateResult entry.getProfile <;>
    cases hS : src.startResult <;>
    simp [selectProfile, setCurrentEntry, scheduleSelection, cancelTimer,
      hs, hg, hU, he, hf, hA, hS, hT]

/-- Witness for amended C2: with a source whose `activateProfile` raises
`KeyError`, the callback swallows the error and still re-checks the
source status; with one raising a non-KeyError, the error escapes while
the entry and its end-of-window timer are already in place. -/
theorem setCurrentEntry_error_containment_witness :
    ((selectProfile rotationOps ⟨false, true, false, fun _ => .keyError, .ok⟩ 0
        ⟨fun _ => false, 0, none, none, some ⟨["a"], 60, 0, none⟩, 1⟩).2.2 = none ∧
      Ev.checkStatus ∈
        (selectProfile rotationOps ⟨false, true, false, fun _ => .keyError, .ok⟩ 0
          ⟨fun _ => false, 0, none, none, some ⟨["a"], 60, 0, none⟩, 1⟩).2.1) ∧
    ((selectProfile rotationOps ⟨false, true, false, fun _ => .otherError, .ok⟩ 0
        ⟨fun _ => false, 0, none, none, some ⟨["a"], 60, 0, none⟩, 1⟩).1.currentEntry =
        some (.rot 0 60 "a") ∧
      Ev.armTimer 60 ∈
        (selectProfile rotationOps ⟨false, true, false, fun _ => .otherError, .ok⟩ 0
          ⟨fun _ => false, 0, none, none, some ⟨["a"], 60, 0, none⟩, 1⟩).2.1) := by
  have h1 := setCurrentEntry_error_containment rotationOps
    ⟨false, true, false, fun _ => .keyError, .ok⟩ 0
    ⟨fun _ => false, 0, none, none, some ⟨["a"], 60, 0, none⟩, 1⟩
    ⟨["a"], 60, 0, none⟩ ⟨["a"], 60, 0, some 60⟩ (.rot 0 60 "a")
    rfl rfl rfl rfl rfl
  have h2 := setCurrentEntry_error_containment rotationOps
    ⟨false, true, false, fun _ => .otherError, .ok⟩ 0
    ⟨fun _ => false, 0, none, none, some ⟨["a"], 60, 0, none⟩, 1⟩
    ⟨["a"], 60, 0, none⟩ ⟨["a"], 60, 0, some 60⟩ (.rot 0 60 "a")
    rfl rfl rfl rfl rfl
  exact ⟨⟨(h1.1 rfl).1, (h1.1 rfl).2.1⟩, ⟨(h2.2.1 rfl).2.2.1, (h2.2.1 rfl).2.2.2⟩⟩

lemma cancelTimer_unarmed {σ : Type} (s : SchedState σ) (h : timerInv s) (j : Nat) :
    (cancelTimer s).1.timers j = false := by
  cases hT : s.selectionTimer with
  | none =>
    have hj : s.timers j = false := by
      cases hj : s.timers j
      · rfl
      · exact absurd (h j hj) (by simp [hT])
    simp [cancelTimer, hT, hj]
  | some i =>
    by_cases hji : j = i
    · simp [cancelTimer, hT, hji]
    · have hj : s.timers j = false := by
        cases hj : s.timers j
        · rfl
        · have h2 := h j hj
          rw [hT] at h2
          exact absurd (Option.some.inj h2) fun e => hji e.symm
      simp [cancelTimer, hT, hji, hj]

lemma timerInv_cancelTimer {σ : Type} (s : SchedState σ) (h : timerInv s) :
    timerInv (cancelTimer s).1 := by
  intro j hj
  rw [cancelTimer_unarmed s h j] at hj
  cases hj

lemma timerInv_scheduleSelection {σ : Type} (src : SourceModel) (now : Nat)
    (time? : Option Nat) (s : SchedState σ) (h : timerInv s) :
    timerInv (scheduleSelection src now time? s).1 := by
  unfold scheduleSelection
  split
  · exact h
  · cases hT : s.selectionTimer with
    | none =>
      intro j hj
      simp only [cancelTimer, hT] at hj ⊢
      by_cases hj2 : j = s.timerCount
      · simp [hj2]
      · rw [if_neg hj2] at hj
        exact absurd (h j hj) (by simp [hT])
    | some i =>
      intro j hj
      simp only [cancelTimer, hT] at hj ⊢
      by_cases hj2 : j = s.timerCount
      · simp [hj2]
      · rw [if_neg hj2] at hj
        by_cases hji : j = i
        · rw [if_pos hji] at hj
          cases hj
        · rw [if_neg hji] at hj
          have h2 := h j hj
          rw [hT] at h2
          exact absurd (Option.some.inj h2) fun e => hji e.symm

lemma timerInv_setCurrentEntry {σ : Type} (src : SourceModel) (now : Nat)
    (entry : Option EntryModel) (s : SchedState σ) (h : timerInv s) :
    timerInv (setCurrentEntry src now entry s).1 := by
  unfold setCurrentEntry
  cases entry with
  | none => exact h
  | some e =>
    dsimp only
    have h1 := timerInv_scheduleSelection src now (some (e.getScheduledEnd now))
      { s with currentEntry := some e } h
    rcases hSS : scheduleSelection src now (some (e.getScheduledEnd now))
        { s with currentEntry := some e } with ⟨s1, ev1⟩
    rw [hSS] at h1
    cases src.activateResult e.getProfile with
    | ok => cases src.startResult <;> exact h1
    | keyError => exact h1
    | otherError => exact h1

lemma timerInv_selectProfile {σ : Type} (ops : ScheduleOps σ) (src : SourceModel)
    (now : Nat) (s : SchedState σ) (h : timerInv s) :
    timerInv (selectProfile ops src now s).1 := by
  unfold selectProfile
  split
  · exact h
  · cases hsch : s.schedule with
    | none => exact timerInv_setCurrentEntry src now none s h
    | some sch =>
      dsimp only
      rcases hG : ops.getCurrentEntry now sch with ⟨entry, sch'⟩
      simp only [hG]
      have h1 := timerInv_setCurrentEntry src now entry
        { s with schedule := some sch' } h
      rcases hSC : setCurrentEntry src now entry { s with schedule := some sch' }
        with ⟨s1, ev1, err⟩
      simp only [hSC]
      rw [hSC] at h1
      cases err with
      | some e => exact h1
      | none =>
        cases hC : s1.currentEntry with
        | some v => exact h1
        | none =>
          rcases hN : ops.getNextEntry now sch' with ⟨nextEntry, sch''⟩
          simp only [hN]
          cases nextEntry with
          | some ne =>
            exact timerInv_scheduleSelection src now (some (ne.getNextActivation now))
              { timers := s1.timers, timerCount := s1.timerCount,
                selectionTimer := s1.selectionTimer, currentEntry := none,
                schedule := some sch'', subscriptions := s1.subscriptions } h1
          | none => exact h1

lemma timerInv_applyOp {σ : Type} (ops : ScheduleOps σ) (src : SourceModel)
    (now : Nat) (op : SchedulerOp σ) (s : SchedState σ) (h : timerInv s) :
    timerInv (applyOp ops src now op s) := by
  cases op with
  | parseSchedule ns =>
    exact timerInv_scheduleSelection src now none { s with schedule := ns } h
  | timerFire i =>
    simp only [applyOp]
    split
    · apply timerInv_selectProfile
      intro j hj
      by_cases hji : j = i
      · rw [hji] at hj
        simp at hj
      · simp only [if_neg hji] at hj
        exact h j hj
    · exact h
  | onStateChange st =>
    simp only [applyOp]
    unfold onStateChange
    split
    · exact timerInv_scheduleSelection src now none s h
    · exact h
  | onFail => exact timerInv_cancelTimer { s with subscriptions := 0 } h
  | onShutdown => exact timerInv_cancelTimer { s with subscriptions := 0 } h
  | onDisable => exact timerInv_cancelTimer s h
  | onEnable => exact timerInv_scheduleSelection src now none s h
  | onBusyStateChange st =>
    simp only [applyOp]
    unfold onBusyStateChange
    split
    · exact timerInv_scheduleSelection src now none s h
    · exact h
  | onFrequencyChange => exact timerInv_scheduleSelection src now none s h
  | shutdown => exact timerInv_cancelTimer { s with subscriptions := 0 } h

/-- C8: the `ServiceScheduler` instance never has more than one armed
re-evaluation timer: the bookkeeping invariant (every armed timer is the
one referenced by `selectionTimer`, which `scheduleSelection` cancels
before arming a fresh one) is preserved by every operation of the
instance — `parseSchedule`, a timer firing into `selectProfile`, each
lifecycle event handler, and `shutdown` — and it entails that at most
one timer is armed afterwards. -/
theorem serviceScheduler_at_most_one_timer {σ : Type} (ops : ScheduleOps σ)
    (src : SourceModel) (now : Nat) (op : SchedulerOp σ) (s : SchedState σ)
    (h : timerInv s) :
    timerInv (applyOp ops src now op s) ∧
    atMostOneArmed (applyOp ops src now op s) := by
  have hinv := timerInv_applyOp ops src now op s h
  refine ⟨hinv, fun i j hi hj => ?_⟩
  have h1 := hinv i hi
  have h2 := hinv j hj
  rw [h1] at h2
  exact Option.some.inj h2

/-- Witness for C8: enabling the source from a fresh state arms one
timer, and the invariant holds afterwards. -/
theorem serviceScheduler_at_most_one_timer_witness :
    timerInv (applyOp staticOps ⟨false, true, false, fun _ => .ok, .ok⟩ 0
      .onEnable ⟨fun _ => false, 0, none, none, none, 0⟩) ∧
    atMostOneArmed (applyOp staticOps ⟨false, true, false, fun _ => .ok, .ok⟩ 0
      .onEnable ⟨fun _ => false, 0, none, none, none, 0⟩) :=
  serviceScheduler_at_most_one_timer staticOps ⟨false, true, false, fun _ => .ok, .ok⟩
    0 .onEnable ⟨fun _ => false, 0, none, none, none, 0⟩ (fun _ hi => nomatch hi)

/-- C9: whenever the hour-angle arccos argument
`-tan(lat)·tan(declination)` falls outside `[-1, 1]` (polar day or polar
night), `getSunTimes` fails fast with a raised `ValueError` (CPython's
`math.acos` domain error) instead of silently returning NaN instants:
the code applies `math.acos` directly, with no guard or clamping. -/
theorem getSunTimes_out_of_domain_raises (lat lng : ℝ) (days : ℕ)
    (h : acosArg lat days < -1 ∨ 1 < acosArg lat days) :
    getSunTimes lat lng days = .error .valueError := by
  simp only [getSunTimes]
  unfold macos
  rw [if_pos h]
  rfl

set_option maxHeartbeats 1000000 in
lemma acosArg_80_172_out : acosArg 80 172 < -1 := by
  have hpi1 : (3.1415 : ℝ) < Real.pi := Real.pi_gt_d4
  have hpi2 : Real.pi < 3.1416 := Real.pi_lt_d4
  have hpi0 : (0 : ℝ) < Real.pi := by linarith
  have e80 : (80 : ℝ) * (Real.pi / 180) = Real.pi / 2 - Real.pi / 18 := by ring
  have eB : bAngle 172 = 2 * Real.pi * 91 / 365 := by
    unfold bAngle; norm_num
  have hsin80 : Real.sin ((80 : ℝ) * (Real.pi / 180)) = Real.cos (Real.pi / 18) := by
    rw [e80, Real.sin_pi_div_two_sub]
  have hcos80 : Real.cos ((80 : ℝ) * (Real.pi / 180)) = Real.sin (Real.pi / 18) := by
    rw [e80, Real.cos_pi_div_two_sub]
  have h18l : (0 : ℝ) < Real.pi / 18 := by linarith
  have h18u : Real.pi / 18 < 0.1746 := by linarith
  have hsin18u : Real.sin (Real.pi / 18) < 0.1746 := lt_trans (Real.sin_lt h18l) h18u
  have hsin18l : 0 < Real.sin (Real.pi / 18) :=
    Real.sin_pos_of_pos_of_lt_pi h18l (by linarith)
  have hsq18 : (Real.pi / 18) ^ 2 < (0.1746 : ℝ) ^ 2 :=
    pow_lt_pow_left₀ h18u (le_of_lt h18l) (by norm_num)
  have hcos18l : (0.98 : ℝ) < Real.cos (Real.pi / 18) := by
    have hb := Real.one_sub_sq_div_two_lt_cos (x := Real.pi / 18) (by linarith)
    have he : ((0.1746 : ℝ)) ^ 2 = 0.03048516 := by norm_num
    linarith
  have htan80 : (4 : ℝ) < Real.tan ((80 : ℝ) * (Real.pi / 180)) := by
    rw [Real.tan_eq_sin_div_cos, hsin80, hcos80, lt_div_iff₀ hsin18l]
    linarith
  have ha_l : (0.409 : ℝ) < 23.45 * (Real.pi / 180) := by linarith
  have ha_u : 23.45 * (Real.pi / 180) < 0.41 := by linarith
  have hsa_l : (0.39 : ℝ) < Real.sin (23.45 * (Real.pi / 180)) := by
    have h1 : Real.sin 0.409 < Real.sin (23.45 * (Real.pi / 180)) :=
      Real.sin_lt_sin_of_lt_of_le_pi_div_two (by linarith) (by linarith) ha_l
    have h2 := Real.sin_gt_sub_cube (x := (0.409 : ℝ)) (by norm_num) (by norm_num)
    have he : (0.409 : ℝ) - 0.409 ^ 3 / 4 = 0.39189551775 := by norm_num
    linarith
  have hsa_u : Real.sin (23.45 * (Real.pi / 180)) < 0.41 :=
    lt_trans (Real.sin_lt (by linarith)) ha_u
  have hsa_0 : (0 : ℝ) < Real.sin (23.45 * (Real.pi / 180)) := by linarith
  have hB_l : (1.1 : ℝ) < bAngle 172 := by rw [eB]; linarith
  have hB_u : bAngle 172 ≤ Real.pi / 2 := by rw [eB]; linarith
  have hsB_l : (0.75 : ℝ) < Real.sin (bAngle 172) := by
    have h1 : Real.sin 1 < Real.sin (bAngle 172) :=
      Real.sin_lt_sin_of_lt_of_le_pi_div_two (by linarith) hB_u (by linarith)
    have h2 := Real.sin_gt_sub_cube (x := (1 : ℝ)) (by norm_num) (by norm_num)
    have he : (1 : ℝ) - 1 ^ 3 / 4 = 0.75 := by norm_num
    linarith
  have hsB_u : Real.sin (bAngle 172) ≤ 1 := Real.sin_le_one _
  have hsB_0 : (0 : ℝ) < Real.sin (bAngle 172) := by linarith
  have hu_l : (0.29 : ℝ) <
      Real.sin (23.45 * (Real.pi / 180)) * Real.sin (bAngle 172) := by
    have h1 : (0.39 : ℝ) * 0.75 <
        Real.sin (23.45 * (Real.pi / 180)) * Real.sin (bAngle 172) :=
      mul_lt_mul' (le_of_lt hsa_l) hsB_l (by norm_num) hsa_0
    linarith
  have hu_u : Real.sin (23.45 * (Real.pi / 180)) * Real.sin (bAngle 172) < 0.41 := by
    have h1 : Real.sin (23.45 * (Real.pi / 180)) * Real.sin (bAngle 172) ≤
        Real.sin (23.45 * (Real.pi / 180)) :=
      mul_le_of_le_one_right (le_of_lt hsa_0) hsB_u
    linarith
  have hu_0 : (0 : ℝ) <
      Real.sin (23.45 * (Real.pi / 180)) * Real.sin (bAngle 172) := by linarith
  have hu_1 : Real.sin (23.45 * (Real.pi / 180)) * Real.sin (bAngle 172) < 1 := by
    linarith
  have hu_sq : (Real.sin (23.45 * (Real.pi / 180)) * Real.sin (bAngle 172)) ^ 2 < 1 :=
    pow_lt_one₀ (le_of_lt hu_0) hu_1 (by norm_num)
  have hsq_pos : (0 : ℝ) <
      Real.sqrt (1 - (Real.sin (23.45 * (Real.pi / 180)) * Real.sin (bAngle 172)) ^ 2) :=
    Real.sqrt_pos.mpr (by linarith)
  have hsq_le :
      Real.sqrt (1 - (Real.sin (23.45 * (Real.pi / 180)) * Real.sin (bAngle 172)) ^ 2) ≤ 1 :=
    Real.sqrt_le_one.mpr
      (by nlinarith [sq_nonneg (Real.sin (23.45 * (Real.pi / 180)) * Real.sin (bAngle 172))])
  have hT2 : Real.sin (23.45 * (Real.pi / 180)) * Real.sin (bAngle 172) ≤
      Real.tan (Real.arcsin (Real.sin (23.45 * (Real.pi / 180)) * Real.sin (bAngle 172))) := by
    rw [Real.tan_arcsin, le_div_iff₀ hsq_pos]
    exact mul_le_of_le_one_right (le_of_lt hu_0) hsq_le
  have hT1pos : (0 : ℝ) < Real.tan ((80 : ℝ) * (Real.pi / 180)) := by linarith
  have hc1 : Real.tan ((80 : ℝ) * (Real.pi / 180)) *
      (Real.sin (23.45 * (Real.pi / 180)) * Real.sin (bAngle 172)) ≤
      Real.tan ((80 : ℝ) * (Real.pi / 180)) *
      Real.tan (Real.arcsin (Real.sin (23.45 * (Real.pi / 180)) * Real.sin (bAngle 172))) :=
    mul_le_mul_of_nonneg_left hT2 (le_of_lt hT1pos)
  have hc2 : (4 : ℝ) * (Real.sin (23.45 * (Real.pi / 180)) * Real.sin (bAngle 172)) <
      Real.tan ((80 : ℝ) * (Real.pi / 180)) *
      (Real.sin (23.45 * (Real.pi / 180)) * Real.sin (bAngle 172)) :=
    mul_lt_mul_of_pos_right htan80 hu_0
  have hc3 : (1 : ℝ) <
      4 * (Real.sin (23.45 * (Real.pi / 180)) * Real.sin (bAngle 172)) := by linarith
  have hfin : (1 : ℝ) < Real.tan ((80 : ℝ) * (Real.pi / 180)) *
      Real.tan (Real.arcsin (Real.sin (23.45 * (Real.pi / 180)) * Real.sin (bAngle 172))) := by
    linarith
  unfold acosArg declination
  nlinarith [hfin]

/-- Witness for C9: at latitude 80°N on day-of-year 172 (around the June
solstice — polar day), the arccos argument is below -1 and the sun-time
computation raises. -/
theorem getSunTimes_out_of_domain_raises_witness :
    getSunTimes 80 0 172 = .error .valueError :=
  getSunTimes_out_of_domain_raises 80 0 172 (Or.inl acosArg_80_172_out)

end OpenWebRX
